import Mathlib

/-!
Verification development for the INSURTECH repository.

This file gives a shallow embedding, in Lean, of the classification engine of
the repository: the keyword classifier (src/classify_insurtech.py,
classify_description), the remote classifier adapter
(src/openai_classifier.py, classify_with_openai), the founding-year corrector
and the batch runner of src/app.py (main, parse_founding_year), and the
redesigned batch runner of src/app_redesign.py (run_analysis).  Theorems about
these definitions settle the frozen claims about the program.

Modelling conventions:
* Python strings are Lean String values.  Lowercasing is mapped over the
  characters (the source data is ASCII, where Python str.lower agrees).
* Python str.count (which counts non-overlapping occurrences scanning left to
  right) is countCL; the Python substring test (kw in text) is containsCL.
* A value that Python represents as NaN / a missing cell is an Option none.
* pandas row-wise behaviour is modelled with lists: one list element per row,
  in the original row order.
-/

/-! ### String primitives (Python str.lower, in, str.count, regex word count) -/

/-- Character-wise lowercase; models Python str.lower on the ASCII data of this
program. -/
def strLower (s : String) : String := ⟨s.data.map Char.toLower⟩

/-- Is the first list a prefix of the second (Boolean)? -/
def isPrefixCL : List Char → List Char → Bool
  | [], _ => true
  | _ :: _, [] => false
  | p :: ps, c :: cs => p = c && isPrefixCL ps cs

/-- Does pat occur as a contiguous substring (Python: pat in s)? -/
def containsCL (pat : List Char) : List Char → Bool
  | [] => isPrefixCL pat []
  | c :: cs => isPrefixCL pat (c :: cs) || containsCL pat cs

/-- Left-to-right scan counting matches of pat; after a match the next
pat.length - 1 positions are skipped, so occurrences are counted
non-overlapping, exactly as Python str.count does. -/
def countSkip (pat : List Char) : List Char → Nat → Nat
  | [], _ => 0
  | c :: cs, skip =>
    if skip > 0 then countSkip pat cs (skip - 1)
    else if isPrefixCL pat (c :: cs) then 1 + countSkip pat cs (pat.length - 1)
    else countSkip pat cs 0

/-- Python s.count(pat): number of non-overlapping occurrences of pat in s
(for the empty pattern Python returns len(s) + 1). -/
def countCL (pat s : List Char) : Nat :=
  if pat.isEmpty then s.length + 1 else countSkip pat s 0

/-- Python: pat in s. -/
def containsS (pat s : String) : Bool := containsCL pat.data s.data

/-- Python: s.count(pat). -/
def countS (pat s : String) : Nat := countCL pat.data s.data

/-- A regex word character, the \w class of the source regex (ASCII data). -/
def isWordChar (c : Char) : Bool := c.isAlphanum || c = '_'

/-- Number of maximal runs of word characters; the inWord flag records whether
the previous character was a word character. -/
def countWordRuns : List Char → Bool → Nat
  | [], _ => 0
  | c :: cs, inWord =>
    if isWordChar c then (if inWord then 0 else 1) + countWordRuns cs true
    else countWordRuns cs false

/-- The word count of classify_description, len of the matches of the regex
\b\w+\b over s: each match of that regex is one maximal run of word
characters. -/
def totalWords (s : String) : Nat := countWordRuns s.data false

/-- Python slicing s[:n]: the first n characters. -/
def pySlice (s : String) (n : Nat) : String := ⟨s.data.take n⟩

/-- Python ", ".join(l). -/
def joinComma (l : List String) : String := String.intercalate ", " l

/-! ### The archetype keyword table (src/classify_insurtech.py, ARCHETYPES) -/

/-- The ARCHETYPES dict of src/classify_insurtech.py, in its declaration
order (Python dicts iterate in insertion order). -/
def ARCHETYPES : List (String × List String) :=
  [("Enablers",
    ["platform", "infrastructure", "saas", "cloud", "back-end", "white-label",
     "technology provider", "software", "api", "core system", "digitize",
     "analytics", "data provider", "underwriting platform", "claims management", "b2b"]),
   ("Connectors",
    ["marketplace", "comparison", "broker", "aggregator", "connect", "match",
     "distribution", "agency", "mga", "intermediary", "portal", "agent", "buying"]),
   ("Innovators",
    ["on-demand", "p2p", "peer-to-peer", "parametric", "microinsurance",
     "usage-based", "gig economy", "new model", "pay-per-mile", "innovative product", "crypto"]),
   ("Disruptors",
    ["automation", "ai-driven", "instant", "machine learning", "disrupt",
     "fully digital", "carrier", "full-stack", "replace", "artificial intelligence", "challenger"]),
   ("Protectors",
    ["prevention", "mitigation", "monitoring", "iot", "wearables", "telematics",
     "cyber", "security", "predict", "alert", "safety", "risk management", "health", "wellness"]),
   ("Integrators",
    ["embedded", "point of sale", "b2b2c", "partner", "integration", "add-on",
     "api-first", "checkout", "plugin", "ecommerce"]),
   ("Transformers",
    ["digital transformation", "modernize", "legacy systems",
     "change management", "insurance transformation", "tech advisory",
     "implementation partner", "core replacement", "digitization strategy",
     "it consulting"])]

/-- The generic rescue terms of classify_description. -/
def generic_keywords : List String :=
  ["insurance", "agency", "brokerage", "services", "ltd", "inc", "group", "solutions"]

/-! ### The keyword classifier (classify_description) -/

/-- One entry of the score table: archetype name, score, matched keywords. -/
abbrev ScoreEntry := String × Nat × List String

/-- The inner loop of classify_description for one archetype: for each keyword
kw, if kw.lower() occurs in the lowered text, add text_lower.count(kw.lower())
to the score and record kw among the found keywords. -/
def archetypeScore (text_lower : String) (kws : List String) : Nat × List String :=
  kws.foldl
    (fun acc kw =>
      if containsS (strLower kw) text_lower then
        let m := countS (strLower kw) text_lower
        (acc.1 + m, if m > 0 then acc.2 ++ [kw] else acc.2)
      else acc)
    (0, [])

/-- scores and keywords_found_map of classify_description, fused into one list
in the fixed archetype order (the dict lookups of the source are realised by
carrying the matched-keyword list in the same entry as the score). -/
def scoreTable (text : String) : List ScoreEntry :=
  ARCHETYPES.map (fun p => (p.1, archetypeScore (strLower text) p.2))

/-- Insert an entry into a list sorted by descending score, after all entries
of greater or equal score. -/
def insertDesc (e : ScoreEntry) : List ScoreEntry → List ScoreEntry
  | [] => [e]
  | y :: ys => if y.2.1 ≥ e.2.1 then y :: insertDesc e ys else e :: y :: ys

/-- Stable sort by descending score: models Python
sorted(scores.items(), key=lambda x: x[1], reverse=True), which is a stable
sort, so entries with equal scores keep the dict insertion order. -/
def sortScoresDesc (l : List ScoreEntry) : List ScoreEntry :=
  l.foldl (fun acc e => insertDesc e acc) []

/-- sorted_scores of classify_description. -/
def sorted_scores (text : String) : List ScoreEntry :=
  sortScoresDesc (scoreTable text)

/-- The rescue pass of classify_description when the best score is zero (the
found_generics binding of the source is realised by repeating the filter
expression). -/
def rescuePass (text_lower : String) : String × String × String :=
  if generic_keywords.filter (fun w => containsS w text_lower) ≠ [] then
    ("Traditional / Generalist", "Low",
     joinComma (generic_keywords.filter (fun w => containsS w text_lower)))
  else ("Unclassified", "Low", "")

/-- Winner selection of classify_description, given the sorted score list
(always of length 7, so the len(sorted_scores) > 1 guard of the source always
holds; the best and second bindings of the source are realised by repeating
the list indexing). -/
def pickWinner (sorted : List ScoreEntry) (text_lower : String) : String × String × String :=
  if (sorted.getD 0 ("", 0, [])).2.1 = 0 then rescuePass text_lower
  else if (sorted.getD 1 ("", 0, [])).2.1 = (sorted.getD 0 ("", 0, [])).2.1 ∧
          (sorted.getD 0 ("", 0, [])).2.1 > 0 then
    ("Hybrid", "Medium",
     joinComma ((sorted.getD 0 ("", 0, [])).2.2 ++ (sorted.getD 1 ("", 0, [])).2.2))
  else
    ((sorted.getD 0 ("", 0, [])).1,
     if (sorted.getD 0 ("", 0, [])).2.1 ≥ 3 then "High"
     else if (sorted.getD 0 ("", 0, [])).2.1 ≥ 1 then "Medium" else "Low",
     joinComma (sorted.getD 0 ("", 0, [])).2.2)

/-- The input of classify_description: a Python value that is either a string
or not a string (NaN, None, a number, ...). -/
inductive TextInput
  | str (s : String)
  | notStr
deriving DecidableEq

/-- classify_description of src/classify_insurtech.py: keyword-based
classification returning (archetype, confidence, evidence). -/
def classify_description : TextInput → String × String × String
  | .notStr => ("Unclassified", "Low", "")
  | .str text =>
    if totalWords (strLower text) = 0 then ("Unclassified", "Low", "")
    else pickWinner (sorted_scores text) (strLower text)

/-! ### The remote classifier adapter (src/openai_classifier.py) -/

/-- A cell that the source sometimes fills with a list and sometimes with a
string: the driving_capabilities slot of the result tuple is the parsed list
on success but the empty string on the error paths. -/
inductive StrOrList
  | str (s : String)
  | list (l : List String)
deriving DecidableEq

/-- The six-tuple (archetype, confidence, justification or keywords,
secondary_archetypes, driving_capabilities, innovation_wave) returned by
classify_with_openai and classify_company_row. -/
structure ClassifyResult where
  archetype : String
  confidence : String
  evidence : String
  secondary : List String
  dcs : StrOrList
  wave : String
deriving DecidableEq

/-- A parsed JSON payload from the remote service, restricted to the shapes
this embedding reasons about: each recognised field is either absent (the
Python dict .get default applies) or carries a value of the expected Python
type, except that archetype and confidence may carry an arbitrary string,
since the source forwards them unvalidated. -/
structure Payload where
  archetype : Option String := none
  secondary_archetypes : Option (List String) := none
  driving_capabilities : Option (List String) := none
  innovation_wave : Option String := none
  justification : Option String := none
  confidence : Option String := none
deriving DecidableEq

/-- What one attempted call of the remote service does: raise an exception
with message msg (network failure, timeout, ...), return a body that
json.loads rejects, or return a parsed payload. -/
inductive ApiOutcome
  | exn (msg : String)
  | badJson
  | ok (p : Payload)
deriving DecidableEq

/-- keywords_display of classify_with_openai:
justification[:200] + "..." when longer than 200 characters. -/
def truncJust (j : String) : String :=
  if j.length > 200 then pySlice j 200 ++ "..." else j

/-- The try/except body of classify_with_openai for one attempt.  Every
exception raised inside the try block is caught: a json.JSONDecodeError
yields the "API Error - JSON" tuple, any other exception yields the
"API Error" tuple with the error text truncated to 80 characters; a parsed
payload is read field by field with the defaults of the source. -/
def attemptResult : ApiOutcome → ClassifyResult
  | .exn msg =>
    { archetype := "API Error", confidence := "Low",
      evidence := "Error: " ++ pySlice msg 80,
      secondary := [], dcs := .str "", wave := "" }
  | .badJson =>
    { archetype := "API Error - JSON", confidence := "Low",
      evidence := "JSON parse error",
      secondary := [], dcs := .str "", wave := "" }
  | .ok p =>
    { archetype := p.archetype.getD "Unclassified",
      confidence := p.confidence.getD "Medium",
      evidence := truncJust (p.justification.getD ""),
      secondary := p.secondary_archetypes.getD [],
      dcs := .list (p.driving_capabilities.getD []),
      wave := p.innovation_wave.getD "" }

/-- The decorated body as the retry layer sees it: a call either returns a
value or raises.  Because the try/except inside classify_with_openai catches
every exception, the body always returns. -/
def attemptBody (o : ApiOutcome) : Except String ClassifyResult :=
  Except.ok (attemptResult o)

/-- The tenacity retry combinator, stop_after_attempt semantics: run the
body on attempt i; a returned value is passed through, a raised exception is
retried while fuel remains and re-raised once the attempts are exhausted. -/
def retryRun (body : Nat → Except String ClassifyResult) : Nat → Nat → Except String ClassifyResult
  | i, fuel =>
    match body i, fuel with
    | .ok b, _ => .ok b
    | .error e, 0 => .error e
    | .error _, f + 1 => retryRun body (i + 1) f

/-- classify_with_openai of src/openai_classifier.py, as a function of the
stream of outcomes of the successive remote attempts.  The decorator is
stop_after_attempt(3), hence fuel 2 after the first attempt. -/
def classify_with_openai (attempts : Nat → ApiOutcome) : Except String ClassifyResult :=
  retryRun (fun i => attemptBody (attempts i)) 0 2

/-- Modelled from the spec: the retry policy the specification describes for
classify_with_openai, in which a transient failure of the underlying API
request propagates to the retry layer (is not swallowed inside the body) and
so is retried on the next attempt, up to 3 attempts. -/
def attemptBodySpec (o : ApiOutcome) : Except String ClassifyResult :=
  match o with
  | .exn msg => .error msg
  | o => .ok (attemptResult o)

/-- Modelled from the spec: classify_with_openai under the retry behaviour
the specification describes. -/
def classify_spec_retry (attempts : Nat → ApiOutcome) : Except String ClassifyResult :=
  retryRun (fun i => attemptBodySpec (attempts i)) 0 2

/-! ### Founding-year corrector (src/app.py, parse_founding_year and the age
correction block of main) -/

/-- One appended result row of the output table.  The three optional fields
model the conditional output columns: none means the column is absent from
(or NaN in) that row. -/
structure RowResult where
  predictedArchetype : String
  confidenceScore : String
  keywordsFound : String
  secondaryArchetypes : String
  drivingCapabilities : String
  innovationWave : String
  foundedYear : Option Int := none
  ageCorrected : Option Bool := none
  initialArchetype : Option String := none
deriving DecidableEq

/-- The candidate substrings of parse_founding_year for discovering the
founding-year column. -/
def year_candidates : List String :=
  ["founded", "founding", "year", "establishment", "launch"]

/-- The column-discovery loop of parse_founding_year: the first column whose
lowercased name contains one of the candidate substrings. -/
def findYearColumn (cols : List String) : Option String :=
  cols.find? (fun col => year_candidates.any (fun cand => containsS cand (strLower col)))

/-- The correction mask of the age-correction block:
Predicted_Archetype in {Disruptors, Innovators} and Founded_Year < 2010.
A missing year (NaN) compares as False in pandas, so such a row is never
masked. -/
def correctionMask (r : RowResult) : Bool :=
  (r.predictedArchetype == "Disruptors" || r.predictedArchetype == "Innovators") &&
    (match r.foundedYear with
     | some y => decide (y < 2010)
     | none => false)

/-- The per-row overwrite of the age-correction block: on masked rows set
Predicted_Archetype to "Traditional / Generalist" and Age_Corrected to True;
no other field is touched. -/
def applyCorrection (r : RowResult) : RowResult :=
  if correctionMask r then
    { r with predictedArchetype := "Traditional / Generalist", ageCorrected := some true }
  else r

/-- The age-correction block of src/app.py main (lines 287 to 295), given the
assembled result rows and the extracted year series: first the Founded_Year
column is written onto the result rows (pandas aligns the two by index, which
the zipWith realises), then the masked rows are overwritten when at least one
row is masked; the mask count is returned as reclassified_count. -/
def age_correction (results : List RowResult) (years : List (Option Int)) :
    List RowResult × Nat :=
  let rows := List.zipWith (fun r y => { r with foundedYear := y }) results years
  let n := List.countP correctionMask rows
  if n > 0 then (rows.map applyCorrection, n) else (rows, n)

/-! ### Batch runners (src/app.py main, src/app_redesign.py run_analysis) -/

/-- What classifying one row does: classify_company_row either returns a
six-tuple or raises, in which case the except branch of the batch loop
fires. -/
inductive RowOutcome
  | ok (r : ClassifyResult)
  | raiseExn (msg : String)
deriving DecidableEq

/-- One input row, abstracted to what the batch runner reads from it: the
outcome of classifying it, the pre-existing Predicted_Archetype cell (present
only in rows of a loaded checkpoint), and the parsed founding-year cell. -/
structure InRow where
  outcome : RowOutcome
  preArch : Option String := none
  yearCell : Option Int := none
deriving DecidableEq

/-- Python ", ".join(x) if x else "" where x is a list. -/
def joinList (l : List String) : String :=
  if l = [] then "" else joinComma l

/-- Python ", ".join(x) if x else "" where x may be a list or a string (the
string case joins its characters). -/
def joinCell : StrOrList → String
  | .str s => if s = "" then "" else joinComma (s.data.map Char.toString)
  | .list l => joinList l

/-- The result record appended by the try branch of the batch loop. -/
def rowRecord (r : ClassifyResult) : RowResult :=
  { predictedArchetype := r.archetype, confidenceScore := r.confidence,
    keywordsFound := r.evidence, secondaryArchetypes := joinList r.secondary,
    drivingCapabilities := joinCell r.dcs, innovationWave := r.wave }

/-- The synthetic record appended by the except branch of the batch loop:
archetype "Processing Error", confidence "Low", the error text truncated to
100 characters, empty secondary fields. -/
def errorRecord (msg : String) : RowResult :=
  { predictedArchetype := "Processing Error", confidenceScore := "Low",
    keywordsFound := pySlice msg 100, secondaryArchetypes := "",
    drivingCapabilities := "", innovationWave := "" }

/-- The archetypes excluded from the per-row cost increment by the batch
runners: use_ai and arch not in this list. -/
def costExcluded : List String := ["API Error", "Unclassified", "Processing Error"]

/-- The running state of the batch loop: the results list and the cost
accumulator, counted in units of the fixed per-call increment 0.0002 USD. -/
structure LoopState where
  results : List RowResult := []
  costUnits : Nat := 0
deriving DecidableEq

/-- One iteration of the batch loop body (identical in src/app.py main and
src/app_redesign.py run_analysis): on success append the result record and,
in AI mode, increment the cost accumulator unless the archetype is one of
the excluded values; on an exception append the synthetic error record and
leave the cost alone. -/
def stepRow (useAi : Bool) (st : LoopState) (row : InRow) : LoopState :=
  match row.outcome with
  | .ok r =>
    { results := st.results ++ [rowRecord r],
      costUnits :=
        if useAi && !(costExcluded.contains r.archetype)
        then st.costUnits + 1 else st.costUnits }
  | .raiseExn msg =>
    { results := st.results ++ [errorRecord msg], costUnits := st.costUnits }

/-- The batch loop: for idx, row in df.iterrows(), skipping rows with
idx < start_idx (the resume guard of src/app.py; run_analysis always starts
at 0). -/
def loopGo (useAi : Bool) (startIdx : Nat) : Nat → LoopState → List InRow → LoopState
  | _, st, [] => st
  | idx, st, row :: rest =>
    if idx < startIdx then loopGo useAi startIdx (idx + 1) st rest
    else loopGo useAi startIdx (idx + 1) (stepRow useAi st row) rest

/-- The full batch loop from the initial empty state. -/
def loopRun (useAi : Bool) (startIdx : Nat) (rows : List InRow) : LoopState :=
  loopGo useAi startIdx 0 {} rows

/-- Python truthiness of the Predicted_Archetype cell in the resume check:
the key must be present and its string value non-empty. -/
def truthyArch : Option String → Bool
  | some s => s ≠ ""
  | none => false

/-- start_idx of src/app.py main: the number of checkpoint rows that already
carry a non-empty Predicted_Archetype. -/
def startIdxOf (rows : List InRow) : Nat :=
  rows.countP (fun r => truthyArch r.preArch)

/-- pd.concat([df, results_df], axis=1) with df at least as long as the
results: row i of the table is input row i paired with result row i when one
exists, and with a missing marker (none) otherwise. -/
def padGo (results : List RowResult) : Nat → List InRow → List (InRow × Option RowResult)
  | _, [] => []
  | i, r :: rest => (r, results.get? i) :: padGo results (i + 1) rest

/-- The final positional merge of the batch runner. -/
def padTable (df : List InRow) (results : List RowResult) : List (InRow × Option RowResult) :=
  padGo results 0 df

/-- The processing block of src/app.py main (lines 188 to 297): choose the
data frame and start index (the checkpoint replaces the uploaded data when
one is in the session), run the batch loop, run the age correction when a
founding-year column was discovered among the column names, and merge the
corrected results positionally with the rows.  Returns the final table, the
reclassified count and the cost accumulator (in cost units). -/
def mainRun (useAi : Bool) (cols : List String) (input : List InRow)
    (checkpoint : Option (List InRow)) : List (InRow × Option RowResult) × Nat × Nat :=
  let df : List InRow := match checkpoint with | some c => c | none => input
  let startIdx : Nat := match checkpoint with | some c => startIdxOf c | none => 0
  let st := loopRun useAi startIdx df
  let corrected : List RowResult × Nat :=
    match findYearColumn cols with
    | some _ => age_correction st.results (df.map (fun r => r.yearCell))
    | none => (st.results, 0)
  (padTable df corrected.1, corrected.2, st.costUnits)

/-- run_analysis of src/app_redesign.py: the same batch loop, started at row
0, with no checkpoint resume and no age correction; the emitted table is the
input rows merged positionally with the six-field result records.  Returns
the table and the cost accumulator. -/
def run_analysis (useAi : Bool) (rows : List InRow) :
    List (InRow × Option RowResult) × Nat :=
  let st := loopRun useAi 0 rows
  (padTable rows st.results, st.costUnits)

/-! ### Helper lemmas: the stable sort -/

theorem mem_insertDesc {e x : ScoreEntry} {l : List ScoreEntry} :
    x ∈ insertDesc e l ↔ x = e ∨ x ∈ l := by
  induction l with
  | nil => simp [insertDesc]
  | cons y ys ih =>
    simp only [insertDesc]
    split
    · rw [List.mem_cons, ih, List.mem_cons]
      tauto
    · simp only [List.mem_cons]

theorem length_insertDesc (e : ScoreEntry) (l : List ScoreEntry) :
    (insertDesc e l).length = l.length + 1 := by
  induction l with
  | nil => rfl
  | cons y ys ih =>
    simp only [insertDesc]
    split <;> simp [ih]

theorem mem_sortFold {x : ScoreEntry} :
    ∀ (l acc : List ScoreEntry),
      (x ∈ l.foldl (fun acc e => insertDesc e acc) acc ↔ x ∈ acc ∨ x ∈ l) := by
  intro l
  induction l with
  | nil => intro acc; simp
  | cons e es ih =>
    intro acc
    rw [List.foldl_cons, ih, mem_insertDesc, List.mem_cons]
    tauto

theorem mem_sortScoresDesc {x : ScoreEntry} {l : List ScoreEntry} :
    x ∈ sortScoresDesc l ↔ x ∈ l := by
  unfold sortScoresDesc
  rw [mem_sortFold]
  simp

theorem length_sortFold :
    ∀ (l acc : List ScoreEntry),
      (l.foldl (fun acc e => insertDesc e acc) acc).length = acc.length + l.length := by
  intro l
  induction l with
  | nil => intro acc; simp
  | cons e es ih =>
    intro acc
    rw [List.foldl_cons, ih, length_insertDesc]
    simp only [List.length_cons]
    omega

theorem length_sortScoresDesc (l : List ScoreEntry) :
    (sortScoresDesc l).length = l.length := by
  unfold sortScoresDesc
  rw [length_sortFold]
  simp

theorem length_scoreTable (t : String) : (scoreTable t).length = 7 := by
  simp [scoreTable, ARCHETYPES]

theorem mem_sorted_scores {e : ScoreEntry} {t : String} :
    e ∈ sorted_scores t ↔ e ∈ scoreTable t := by
  unfold sorted_scores
  exact mem_sortScoresDesc

theorem length_sorted_scores (t : String) : (sorted_scores t).length = 7 := by
  unfold sorted_scores
  rw [length_sortScoresDesc, length_scoreTable]

/-- The fixed list of archetype names. -/
def archNames : List String :=
  ["Enablers", "Connectors", "Innovators", "Disruptors", "Protectors",
   "Integrators", "Transformers"]

/-- The three confidence levels of the data model. -/
def confLevels : List String := ["Low", "Medium", "High"]

theorem scoreTable_names {e : ScoreEntry} {t : String}
    (h : e ∈ scoreTable t) : e.1 ∈ archNames := by
  simp only [scoreTable, ARCHETYPES, List.map_cons, List.map_nil, List.mem_cons,
    List.not_mem_nil, or_false] at h
  rcases h with h | h | h | h | h | h | h <;> subst h <;> simp [archNames]

/-! ### Helper lemmas: word characters and substring containment -/

theorem isPrefixCL_mem : ∀ {pat l : List Char}, isPrefixCL pat l = true →
    ∀ c ∈ pat, c ∈ l := by
  intro pat
  induction pat with
  | nil => intro l _ c hc; simp at hc
  | cons p ps ih =>
    intro l h c hc
    cases l with
    | nil => simp [isPrefixCL] at h
    | cons a as =>
      simp only [isPrefixCL, Bool.and_eq_true, decide_eq_true_eq] at h
      rcases List.mem_cons.mp hc with rfl | hc
      · exact h.1 ▸ List.mem_cons_self _ _
      · exact List.mem_cons_of_mem _ (ih h.2 c hc)

theorem containsCL_mem : ∀ {l pat : List Char}, containsCL pat l = true →
    ∀ c ∈ pat, c ∈ l := by
  intro l
  induction l with
  | nil =>
    intro pat h c hc
    cases pat with
    | nil => simp at hc
    | cons p ps => simp [containsCL, isPrefixCL] at h
  | cons a as ih =>
    intro pat h c hc
    simp only [containsCL, Bool.or_eq_true] at h
    rcases h with h | h
    · exact isPrefixCL_mem h c hc
    · exact List.mem_cons_of_mem _ (ih h c hc)

theorem noWord_not_contains {s pat : String}
    (hs : ∀ c ∈ s.data, isWordChar c = false)
    (hp : pat.data.any isWordChar = true) :
    containsS pat s = false := by
  by_contra h
  rw [Bool.not_eq_false] at h
  rcases List.any_eq_true.mp hp with ⟨c, hc, hw⟩
  have := hs c (containsCL_mem h c hc)
  rw [this] at hw
  exact Bool.false_ne_true hw

theorem countWordRuns_zero : ∀ {l : List Char}, countWordRuns l false = 0 →
    ∀ c ∈ l, isWordChar c = false := by
  intro l
  induction l with
  | nil => intro _ c hc; simp at hc
  | cons a as ih =>
    intro h c hc
    by_cases ha : isWordChar a = true
    · rw [countWordRuns, if_pos ha] at h
      simp at h
    · rw [countWordRuns, if_neg ha] at h
      rcases List.mem_cons.mp hc with rfl | hc
      · simpa using ha
      · exact ih h c hc

theorem totalWords_zero {s : String} (h : totalWords s = 0) :
    ∀ c ∈ s.data, isWordChar c = false :=
  countWordRuns_zero h

/-- Every archetype keyword, once lowered, contains a word character. -/
theorem arch_keywords_have_word :
    ∀ p ∈ ARCHETYPES, ∀ kw ∈ p.2, (strLower kw).data.any isWordChar = true := by
  decide

/-- Every generic rescue term contains a word character. -/
theorem generic_have_word :
    ∀ w ∈ generic_keywords, w.data.any isWordChar = true := by
  decide

theorem archetypeScore_zero {tl : String} {kws : List String}
    (h : ∀ kw ∈ kws, containsS (strLower kw) tl = false) :
    archetypeScore tl kws = (0, []) := by
  unfold archetypeScore
  have : ∀ (acc : Nat × List String),
      kws.foldl
        (fun acc kw =>
          if containsS (strLower kw) tl then
            let m := countS (strLower kw) tl
            (acc.1 + m, if m > 0 then acc.2 ++ [kw] else acc.2)
          else acc) acc = acc := by
    induction kws with
    | nil => intro acc; rfl
    | cons kw ks ih =>
      intro acc
      rw [List.foldl_cons, if_neg]
      · exact ih (fun k hk => h k (List.mem_cons_of_mem _ hk)) acc
      · rw [h kw (List.mem_cons_self _ _)]
        exact Bool.false_ne_true
  exact this (0, [])

theorem scoreTable_zero_of_noWords {t : String}
    (h : totalWords (strLower t) = 0) :
    ∀ e ∈ scoreTable t, e.2.1 = 0 := by
  intro e he
  simp only [scoreTable, List.mem_map] at he
  rcases he with ⟨p, hp, rfl⟩
  have hz : archetypeScore (strLower t) p.2 = (0, []) := by
    apply archetypeScore_zero
    intro kw hkw
    exact noWord_not_contains (totalWords_zero h) (arch_keywords_have_word p hp kw hkw)
  simp [hz]

theorem rescue_empty_of_noWords {t : String}
    (h : totalWords (strLower t) = 0) :
    generic_keywords.filter (fun w => containsS w (strLower t)) = [] := by
  apply List.filter_eq_nil_iff.mpr
  intro w hw
  rw [noWord_not_contains (totalWords_zero h) (generic_have_word w hw)]
  exact Bool.false_ne_true

theorem words_pos_of_top_pos {t : String} {e : ScoreEntry} {rest : List ScoreEntry}
    (hs : sorted_scores t = e :: rest) (hpos : 0 < e.2.1) :
    totalWords (strLower t) ≠ 0 := by
  intro h0
  have he : e ∈ sorted_scores t := by rw [hs]; exact List.mem_cons_self _ _
  have := scoreTable_zero_of_noWords h0 e (mem_sorted_scores.mp he)
  omega

/-! ### Helper lemmas: the batch loop -/

/-- The record the batch loop appends for one row: the try branch record on a
returned six-tuple, the except branch record on an exception. -/
def recOf (row : InRow) : RowResult :=
  match row.outcome with
  | .ok r => rowRecord r
  | .raiseExn msg => errorRecord msg

/-- Whether the batch loop increments the cost accumulator on one row. -/
def costOf (useAi : Bool) (row : InRow) : Bool :=
  match row.outcome with
  | .ok r => useAi && !(costExcluded.contains r.archetype)
  | .raiseExn _ => false

theorem stepRow_eq (useAi : Bool) (st : LoopState) (row : InRow) :
    stepRow useAi st row =
      { results := st.results ++ [recOf row],
        costUnits := st.costUnits + (if costOf useAi row then 1 else 0) } := by
  cases hrow : row.outcome with
  | ok r =>
    simp only [stepRow, recOf, costOf, hrow]
    split <;> simp
  | raiseExn msg =>
    simp only [stepRow, recOf, costOf, hrow]
    simp

theorem loopGo_zero (useAi : Bool) :
    ∀ (rows : List InRow) (idx : Nat) (st : LoopState),
      loopGo useAi 0 idx st rows =
        { results := st.results ++ rows.map recOf,
          costUnits := st.costUnits + List.countP (costOf useAi) rows } := by
  intro rows
  induction rows with
  | nil => intro idx st; simp [loopGo]
  | cons row rest ih =>
    intro idx st
    rw [loopGo, if_neg (Nat.not_lt_zero idx), ih, stepRow_eq]
    simp only [List.map_cons, List.countP_cons, LoopState.mk.injEq]
    constructor
    · simp
    · omega

theorem loopRun_zero (useAi : Bool) (rows : List InRow) :
    loopRun useAi 0 rows =
      { results := rows.map recOf, costUnits := List.countP (costOf useAi) rows } := by
  unfold loopRun
  rw [loopGo_zero]
  simp

theorem padGo_get (results : List RowResult) :
    ∀ (df : List InRow) (i j : Nat),
      (padGo results i df).get? j = (df.get? j).map (fun r => (r, results.get? (i + j))) := by
  intro df
  induction df with
  | nil => intro i j; simp [padGo]
  | cons r rest ih =>
    intro i j
    cases j with
    | zero => simp [padGo]
    | succ j =>
      simp only [padGo, List.get?_cons_succ, ih (i + 1) j]
      have : i + 1 + j = i + (j + 1) := by omega
      rw [this]

theorem padTable_get (df : List InRow) (results : List RowResult) (j : Nat) :
    (padTable df results).get? j = (df.get? j).map (fun r => (r, results.get? j)) := by
  unfold padTable
  rw [padGo_get]
  simp

theorem length_padGo (results : List RowResult) :
    ∀ (df : List InRow) (i : Nat), (padGo results i df).length = df.length := by
  intro df
  induction df with
  | nil => intro i; rfl
  | cons r rest ih => intro i; simp [padGo, ih]

theorem length_padTable (df : List InRow) (results : List RowResult) :
    (padTable df results).length = df.length := by
  unfold padTable
  exact length_padGo results df 0

/-! ### Helper lemmas: the age correction on the assembled batch results -/

/-- The year-annotated record of one row as the correction block sees it. -/
def yearedRec (row : InRow) : RowResult :=
  { recOf row with foundedYear := row.yearCell }

theorem zipWith_year_map (df : List InRow) :
    List.zipWith (fun r y => { r with foundedYear := y }) (df.map recOf)
      (df.map (fun r => r.yearCell)) = df.map yearedRec := by
  induction df with
  | nil => rfl
  | cons r rest ih => simp [ih, yearedRec]

theorem applyCorrection_id {r : RowResult} (h : correctionMask r = false) :
    applyCorrection r = r := by
  unfold applyCorrection
  rw [h]
  simp

theorem age_correction_batch (df : List InRow) :
    age_correction (df.map recOf) (df.map (fun r => r.yearCell)) =
      (df.map (fun r => applyCorrection (yearedRec r)),
       List.countP (fun r => correctionMask (yearedRec r)) df) := by
  unfold age_correction
  rw [zipWith_year_map]
  simp only [List.countP_map]
  have hc : List.countP ((fun r => correctionMask r) ∘ yearedRec) df =
      List.countP (fun r => correctionMask (yearedRec r)) df := by
    rfl
  split
  · rw [List.map_map]
    exact congrArg _ hc
  · rename_i hn
    rw [Nat.not_lt, Nat.le_zero] at hn
    have hmask : ∀ r ∈ df, correctionMask (yearedRec r) = false := by
      intro r hr
      have := List.countP_eq_zero.mp (hc ▸ hn) r hr
      simpa using this
    have : df.map (fun r => applyCorrection (yearedRec r)) = df.map yearedRec := by
      apply List.map_congr_left
      intro r hr
      exact applyCorrection_id (hmask r hr)
    rw [this]
    exact congrArg _ (by rfl)

/-! ### Helper lemmas: winner selection -/

theorem best_zero_of_all_zero {t : String}
    (hz : ∀ e ∈ scoreTable t, e.2.1 = 0) :
    ((sorted_scores t).getD 0 ("", 0, [])).2.1 = 0 := by
  cases hss : sorted_scores t with
  | nil =>
    have := length_sorted_scores t
    rw [hss] at this
    simp at this
  | cons e rest =>
    rw [List.getD_cons_zero]
    apply hz
    apply mem_sorted_scores.mp
    rw [hss]
    exact List.mem_cons_self _ _

theorem rescuePass_inv (tl : String) :
    (rescuePass tl).1 ≠ "" ∧ (rescuePass tl).2.1 = "Low" := by
  unfold rescuePass
  split
  · exact ⟨(by decide : ("Traditional / Generalist" : String) ≠ ""), rfl⟩
  · exact ⟨(by decide : ("Unclassified" : String) ≠ ""), rfl⟩

theorem pickWinner_inv (t : String) (tl : String) :
    (pickWinner (sorted_scores t) tl).1 ≠ "" ∧
    (pickWinner (sorted_scores t) tl).2.1 ∈ confLevels := by
  unfold pickWinner
  by_cases hb : ((sorted_scores t).getD 0 ("", 0, [])).2.1 = 0
  · rw [if_pos hb]
    rcases rescuePass_inv tl with ⟨h1, h2⟩
    exact ⟨h1, by rw [h2]; decide⟩
  · rw [if_neg hb]
    by_cases htie : ((sorted_scores t).getD 1 ("", 0, [])).2.1 =
        ((sorted_scores t).getD 0 ("", 0, [])).2.1 ∧
        ((sorted_scores t).getD 0 ("", 0, [])).2.1 > 0
    · rw [if_pos htie]
      exact ⟨(by decide : ("Hybrid" : String) ≠ ""),
             (by decide : ("Medium" : String) ∈ confLevels)⟩
    · rw [if_neg htie]
      constructor
      · cases hss : sorted_scores t with
        | nil =>
          have := length_sorted_scores t
          rw [hss] at this
          simp at this
        | cons e rest =>
          have he : e ∈ scoreTable t := by
            apply mem_sorted_scores.mp
            rw [hss]
            exact List.mem_cons_self _ _
          have hn := scoreTable_names he
          simp only [List.getD_cons_zero]
          simp only [archNames, List.mem_cons, List.not_mem_nil, or_false] at hn
          rcases hn with h | h | h | h | h | h | h <;> rw [h] <;> decide
      · split
        · exact (by decide : ("High" : String) ∈ confLevels)
        · split
          · exact (by decide : ("Medium" : String) ∈ confLevels)
          · exact (by decide : ("Low" : String) ∈ confLevels)

/-! ### C4: tie between the top two scores yields Hybrid -/

/-- C4: for every text input for which the top two entries of the sorted
score list carry equal, strictly positive scores, classify_description
returns archetype Hybrid with confidence Medium, and the evidence is the
concatenation (not deduplicated) of the two tied archetypes matched-keyword
lists joined by ", ". -/
theorem keyword_tie_yields_hybrid
    (t a₁ a₂ : String) (s₁ s₂ : Nat) (l₁ l₂ : List String) (rest : List ScoreEntry)
    (hs : sorted_scores t = (a₁, s₁, l₁) :: (a₂, s₂, l₂) :: rest)
    (heq : s₂ = s₁) (hpos : 0 < s₁) :
    classify_description (.str t) = ("Hybrid", "Medium", joinComma (l₁ ++ l₂)) := by
  have hw : ¬ totalWords (strLower t) = 0 := words_pos_of_top_pos hs hpos
  simp only [classify_description]
  rw [if_neg hw, hs]
  unfold pickWinner
  simp only [List.getD_cons_zero, List.getD_cons_succ]
  rw [if_neg (by omega : ¬ s₁ = 0), if_pos ⟨heq, hpos⟩]

/-- Witness for C4 at the concrete text "platform broker": Enablers and
Connectors tie at score 1 and the result is Hybrid with both keyword lists
concatenated. -/
theorem keyword_tie_yields_hybrid_witness :
    classify_description (.str "platform broker") =
      ("Hybrid", "Medium", joinComma (["platform"] ++ ["broker"])) :=
  keyword_tie_yields_hybrid "platform broker" "Enablers" "Connectors" 1 1
    ["platform"] ["broker"]
    [("Innovators", 0, []), ("Disruptors", 0, []), ("Protectors", 0, []),
     ("Integrators", 0, []), ("Transformers", 0, [])]
    (by decide) rfl (by decide)

/-! ### C5: unique strictly positive top score -/

/-- C5: for every text input whose sorted score list has a unique strictly
positive top score, classify_description returns the top archetype, with
confidence High when its score is at least 3 and Medium otherwise (the score
is at least 1 here), and that archetype matched keywords joined by ", " as
evidence. -/
theorem keyword_unique_top
    (t a₁ a₂ : String) (s₁ s₂ : Nat) (l₁ l₂ : List String) (rest : List ScoreEntry)
    (hs : sorted_scores t = (a₁, s₁, l₁) :: (a₂, s₂, l₂) :: rest)
    (hlt : s₂ < s₁) :
    classify_description (.str t) =
      (a₁, if 3 ≤ s₁ then "High" else "Medium", joinComma l₁) := by
  have hpos : 0 < s₁ := Nat.lt_of_le_of_lt (Nat.zero_le _) hlt
  have hw : ¬ totalWords (strLower t) = 0 := words_pos_of_top_pos hs hpos
  simp only [classify_description]
  rw [if_neg hw, hs]
  unfold pickWinner
  simp only [List.getD_cons_zero, List.getD_cons_succ]
  rw [if_neg (by omega : ¬ s₁ = 0), if_neg (by omega : ¬ (s₂ = s₁ ∧ s₁ > 0))]
  by_cases h3 : 3 ≤ s₁
  · rw [if_pos h3, if_pos (by omega : s₁ ≥ 3)]
  · rw [if_neg h3, if_neg (by omega : ¬ s₁ ≥ 3), if_pos (by omega : s₁ ≥ 1)]

/-- Witness for C5 at the concrete text "automation instant carrier":
Disruptors alone scores 3 and the result is High confidence. -/
theorem keyword_unique_top_witness :
    classify_description (.str "automation instant carrier") =
      ("Disruptors", if 3 ≤ 3 then "High" else "Medium",
       joinComma ["automation", "instant", "carrier"]) :=
  keyword_unique_top "automation instant carrier" "Disruptors" "Enablers" 3 0
    ["automation", "instant", "carrier"] []
    [("Connectors", 0, []), ("Innovators", 0, []), ("Protectors", 0, []),
     ("Integrators", 0, []), ("Transformers", 0, [])]
    (by decide) (by decide)

/-! ### C6: degenerate inputs and the generic rescue pass -/

/-- C6: a non-string input, or a text with zero word tokens, yields
(Unclassified, Low, ""); a text whose archetype scores are all zero yields
(Traditional / Generalist, Low, the matched generic terms joined by ", ")
when one of the eight generic terms occurs in the lowered text, and
(Unclassified, Low, "") otherwise. -/
theorem keyword_degenerate_and_rescue :
    (classify_description .notStr = ("Unclassified", "Low", "")) ∧
    (∀ t : String, totalWords (strLower t) = 0 →
      classify_description (.str t) = ("Unclassified", "Low", "")) ∧
    (∀ t : String, (∀ e ∈ scoreTable t, e.2.1 = 0) →
      generic_keywords.filter (fun w => containsS w (strLower t)) ≠ [] →
      classify_description (.str t) =
        ("Traditional / Generalist", "Low",
         joinComma (generic_keywords.filter (fun w => containsS w (strLower t))))) ∧
    (∀ t : String, (∀ e ∈ scoreTable t, e.2.1 = 0) →
      generic_keywords.filter (fun w => containsS w (strLower t)) = [] →
      classify_description (.str t) = ("Unclassified", "Low", "")) := by
  refine ⟨rfl, ?_, ?_, ?_⟩
  · intro t h0
    simp only [classify_description]
    rw [if_pos h0]
  · intro t hz hfil
    by_cases h0 : totalWords (strLower t) = 0
    · exact absurd (rescue_empty_of_noWords h0) hfil
    · simp only [classify_description]
      rw [if_neg h0]
      unfold pickWinner
      rw [if_pos (best_zero_of_all_zero hz)]
      unfold rescuePass
      rw [if_pos hfil]
  · intro t hz hfil
    by_cases h0 : totalWords (strLower t) = 0
    · simp only [classify_description]
      rw [if_pos h0]
    · simp only [classify_description]
      rw [if_neg h0]
      unfold pickWinner
      rw [if_pos (best_zero_of_all_zero hz)]
      unfold rescuePass
      rw [if_neg (by simp [hfil])]

/-- Witness for C6: the empty-token clause at "!!! ...", the rescue clause at
"insurance services inc" (three generic terms match, no archetype keyword
matches), and the no-generic clause at "hello world". -/
theorem keyword_degenerate_and_rescue_witness :
    classify_description (.str "!!! ...") = ("Unclassified", "Low", "") ∧
    classify_description (.str "insurance services inc") =
      ("Traditional / Generalist", "Low",
       joinComma (generic_keywords.filter
         (fun w => containsS w (strLower "insurance services inc")))) ∧
    classify_description (.str "hello world") = ("Unclassified", "Low", "") :=
  ⟨keyword_degenerate_and_rescue.2.1 "!!! ..." (by decide),
   keyword_degenerate_and_rescue.2.2.1 "insurance services inc" (by decide) (by decide),
   keyword_degenerate_and_rescue.2.2.2 "hello world" (by decide) (by decide)⟩

/-! ### C3: the result-shape invariant of the two classification modes -/

/-- Counterexample input for C3: a syntactically valid JSON payload whose
confidence field is not one of the three levels. -/
def oddPayload : Payload :=
  { archetype := some "Disruptors", secondary_archetypes := some [],
    driving_capabilities := some [], innovation_wave := some "3.0",
    justification := some "full-stack carrier", confidence := some "banana" }

/-- Counterexample for C3: the claim says every result of the remote mode has
confidence among Low, Medium and High; but classify_with_openai forwards the
confidence field of the payload unvalidated, so a successful remote call
whose payload says "banana" produces a result with confidence "banana". -/
theorem remote_confidence_not_validated :
    (attemptResult (.ok oddPayload)).confidence = "banana" ∧
    "banana" ∉ confLevels := by
  constructor
  · rfl
  · decide

/-- C3, as it holds on the code: every keyword-mode result has a non-empty
archetype and a confidence among the three levels (and its evidence is a
string by construction); the two remote error paths fix confidence Low and a
non-empty archetype; but a successful remote result forwards the archetype
and confidence fields of the payload verbatim, so those fields satisfy the
invariant only when the payload does. -/
theorem classification_result_invariant :
    (∀ input : TextInput,
      (classify_description input).1 ≠ "" ∧
      (classify_description input).2.1 ∈ confLevels) ∧
    (∀ msg : String,
      (attemptResult (.exn msg)).archetype = "API Error" ∧
      (attemptResult (.exn msg)).confidence = "Low") ∧
    ((attemptResult .badJson).archetype = "API Error - JSON" ∧
     (attemptResult .badJson).confidence = "Low") ∧
    (∀ p : Payload,
      (attemptResult (.ok p)).archetype = p.archetype.getD "Unclassified" ∧
      (attemptResult (.ok p)).confidence = p.confidence.getD "Medium") := by
  refine ⟨?_, fun msg => ⟨rfl, rfl⟩, ⟨rfl, rfl⟩, fun p => ⟨rfl, rfl⟩⟩
  intro input
  cases input with
  | notStr =>
    exact ⟨(by decide : ("Unclassified" : String) ≠ ""),
           (by decide : ("Low" : String) ∈ confLevels)⟩
  | str t =>
    simp only [classify_description]
    by_cases h0 : totalWords (strLower t) = 0
    · rw [if_pos h0]
      exact ⟨(by decide : ("Unclassified" : String) ≠ ""),
             (by decide : ("Low" : String) ∈ confLevels)⟩
    · rw [if_neg h0]
      exact pickWinner_inv t (strLower t)

/-! ### C1: the founding-year corrector -/

theorem zipWith_get_opt {α β γ : Type} (f : α → β → γ) :
    ∀ (l₁ : List α) (l₂ : List β) (i : Nat) (a : α) (b : β),
      l₁.get? i = some a → l₂.get? i = some b →
      (List.zipWith f l₁ l₂).get? i = some (f a b) := by
  intro l₁
  induction l₁ with
  | nil => intro l₂ i a b h _; simp at h
  | cons x xs ih =>
    intro l₂ i a b h₁ h₂
    cases l₂ with
    | nil => simp at h₂
    | cons y ys =>
      cases i with
      | zero =>
        simp only [List.get?_cons_zero, Option.some_inj] at h₁ h₂
        subst h₁
        subst h₂
        rfl
      | succ i =>
        simp only [List.get?_cons_succ] at h₁ h₂
        simpa [List.zipWith] using ih ys i a b h₁ h₂

theorem age_correction_get (results : List RowResult) (years : List (Option Int))
    (i : Nat) (r : RowResult) (y : Option Int)
    (hr : results.get? i = some r) (hy : years.get? i = some y) :
    (age_correction results years).1.get? i =
      some (if 0 < List.countP correctionMask
              (List.zipWith (fun r y => { r with foundedYear := y }) results years)
            then applyCorrection { r with foundedYear := y }
            else { r with foundedYear := y }) := by
  have hz : (List.zipWith (fun r y => { r with foundedYear := y }) results years).get? i
      = some { r with foundedYear := y } :=
    zipWith_get_opt _ results years i r y hr hy
  simp only [age_correction]
  split
  · rename_i hn
    simp only [List.get?_map, hz]
    rfl
  · exact hz

/-- C1 (amended): after a batch, for every result row whose predicted
archetype is Disruptors or Innovators and whose extracted founding year is
present and strictly below 2010, the corrector overwrites the archetype to
Traditional / Generalist and sets the Age_Corrected flag, leaving every other
field (including the Initial_Archetype column, which the code never writes)
unchanged; the mask count is returned to the caller as reclassified_count;
and every row whose mask is false (in particular every row without a usable
founding year) keeps its six result fields unchanged apart from the appended
Founded_Year column. -/
theorem founding_year_corrector
    (results : List RowResult) (years : List (Option Int)) (i : Nat)
    (r : RowResult) (y : Option Int)
    (hr : results.get? i = some r) (hy : years.get? i = some y) :
    ((age_correction results years).2 =
      List.countP correctionMask
        (List.zipWith (fun r y => { r with foundedYear := y }) results years)) ∧
    ((r.predictedArchetype = "Disruptors" ∨ r.predictedArchetype = "Innovators") →
      ∀ yr : Int, y = some yr → yr < 2010 →
      (age_correction results years).1.get? i =
        some { r with foundedYear := some yr,
                      predictedArchetype := "Traditional / Generalist",
                      ageCorrected := some true }) ∧
    (correctionMask { r with foundedYear := y } = false →
      (age_correction results years).1.get? i = some { r with foundedYear := y }) := by
  refine ⟨?_, ?_, ?_⟩
  · simp only [age_correction]
    split <;> rfl
  · intro harch yr hyr hlt
    subst hyr
    have hmask : correctionMask { r with foundedYear := some yr } = true := by
      unfold correctionMask
      rcases harch with h | h <;>
        simp [h, hlt]
    have hpos : 0 < List.countP correctionMask
        (List.zipWith (fun r y => { r with foundedYear := y }) results years) := by
      apply List.countP_pos_iff.mpr
      refine ⟨{ r with foundedYear := some yr }, ?_, hmask⟩
      exact List.get?_mem (zipWith_get_opt _ results years i r (some yr) hr hy)
    rw [age_correction_get results years i r (some yr) hr hy, if_pos hpos]
    unfold applyCorrection
    rw [hmask]
    rfl
  · intro hmask
    rw [age_correction_get results years i r y hr hy]
    split
    · rw [applyCorrection_id hmask]
    · rfl

/-- The concrete Innovators result row used to settle C1. -/
def innovRow : RowResult :=
  { predictedArchetype := "Innovators", confidenceScore := "High",
    keywordsFound := "p2p", secondaryArchetypes := "",
    drivingCapabilities := "", innovationWave := "" }

/-- Witness for C1: an Innovators row founded 2005 is overwritten and
flagged; the same row founded 2015 is left unchanged apart from the appended
Founded_Year column. -/
theorem founding_year_corrector_witness :
    (age_correction [innovRow] [some (2005 : Int)]).1.get? 0 =
      some { innovRow with
               foundedYear := some (2005 : Int),
               predictedArchetype := "Traditional / Generalist",
               ageCorrected := some true } ∧
    (age_correction [innovRow] [some (2015 : Int)]).1.get? 0 =
      some { innovRow with foundedYear := some (2015 : Int) } :=
  ⟨(founding_year_corrector [innovRow] [some 2005] 0 innovRow (some 2005)
      rfl rfl).2.1 (Or.inr rfl) 2005 rfl (by decide),
   (founding_year_corrector [innovRow] [some 2015] 0 innovRow (some 2015)
      rfl rfl).2.2 (by decide)⟩

/-- Counterexample for C1: the claim says the corrector preserves the
original archetype in the auxiliary Initial_Archetype field, but the code
never writes such a field: the corrected row of this concrete run carries
initialArchetype none rather than some "Innovators", so the original
archetype is lost. -/
theorem corrector_does_not_preserve_initial_archetype :
    (age_correction [innovRow] [some (2005 : Int)]).1 =
      [{ predictedArchetype := "Traditional / Generalist", confidenceScore := "High",
         keywordsFound := "p2p", secondaryArchetypes := "",
         drivingCapabilities := "", innovationWave := "",
         foundedYear := some (2005 : Int), ageCorrected := some true,
         initialArchetype := none }] ∧
    (age_correction [innovRow] [some (2005 : Int)]).1.map
        (fun r => r.initialArchetype) ≠ [some "Innovators"] := by
  constructor
  · decide
  · decide

/-! ### C2: the remote adapter on transient failures -/

/-- The payload used to exhibit the missing retry: the second attempt would
succeed. -/
def goodPayload : Payload :=
  { archetype := some "Disruptors", secondary_archetypes := some [],
    driving_capabilities := some ["DC2"], innovation_wave := some "2.0",
    justification := some "full-stack automation", confidence := some "High" }

/-- Attempt stream for the counterexample: the first call times out, every
later call would succeed. -/
def timeoutThenOk : Nat → ApiOutcome :=
  fun i => if i = 0 then .exn "Request timed out" else .ok goodPayload

/-- Counterexample for C2: the claim says a transient failure of the API
request is retried (up to 3 attempts) and that the synthetic tuple carries an
empty list in the driving-capabilities slot.  Neither holds: the try/except
inside classify_with_openai swallows the exception before the tenacity
decorator can see it, so with a stream whose first attempt times out and
whose second attempt would succeed the code still returns the API Error
result of attempt 0 (the spec-modelled retry behaviour returns the success);
and the synthetic tuple carries the empty string, not an empty list, in the
driving-capabilities slot. -/
theorem remote_retry_never_fires :
    classify_with_openai timeoutThenOk =
      .ok { archetype := "API Error", confidence := "Low",
            evidence := "Error: " ++ pySlice "Request timed out" 80,
            secondary := [], dcs := .str "", wave := "" } ∧
    classify_spec_retry timeoutThenOk =
      .ok { archetype := "Disruptors", confidence := "High",
            evidence := "full-stack automation",
            secondary := [], dcs := .list ["DC2"], wave := "2.0" } ∧
    classify_with_openai timeoutThenOk ≠ classify_spec_retry timeoutThenOk ∧
    (attemptResult (.exn "Request timed out")).dcs ≠ .list [] := by
  have h1 : classify_with_openai timeoutThenOk =
      Except.ok { archetype := "API Error", confidence := "Low",
                  evidence := "Error: " ++ pySlice "Request timed out" 80,
                  secondary := [], dcs := .str "", wave := "" } := rfl
  have h2 : classify_spec_retry timeoutThenOk =
      Except.ok { archetype := "Disruptors", confidence := "High",
                  evidence := "full-stack automation",
                  secondary := [], dcs := .list ["DC2"], wave := "2.0" } := rfl
  refine ⟨h1, h2, ?_, by decide⟩
  rw [h1, h2]
  intro h
  have harch : ("API Error" : String) = "Disruptors" :=
    congrArg ClassifyResult.archetype (Except.ok.inj h)
  exact absurd harch (by decide)

/-- C2 (amended): classify_with_openai never raises to the caller and never
retries: whatever the attempt stream, it returns the result of attempt 0; an
attempt that raises with message msg is caught at once and yields the
synthetic tuple ("API Error", "Low", "Error: " plus the message truncated to
80 characters, [], "", ""); an attempt whose payload is unparsable yields
("API Error - JSON", "Low", "JSON parse error", [], "", "").  In particular a
stream of three consecutive timeouts yields the API Error tuple without
raising, by the first clause alone. -/
theorem remote_fails_soft_no_retry (attempts : Nat → ApiOutcome) :
    (classify_with_openai attempts = .ok (attemptResult (attempts 0))) ∧
    (∀ msg : String, attempts 0 = .exn msg →
      classify_with_openai attempts =
        .ok { archetype := "API Error", confidence := "Low",
              evidence := "Error: " ++ pySlice msg 80,
              secondary := [], dcs := .str "", wave := "" }) ∧
    (attempts 0 = .badJson →
      classify_with_openai attempts =
        .ok { archetype := "API Error - JSON", confidence := "Low",
              evidence := "JSON parse error",
              secondary := [], dcs := .str "", wave := "" }) := by
  refine ⟨rfl, ?_, ?_⟩
  · intro msg h
    show retryRun (fun i => attemptBody (attempts i)) 0 2 = _
    rw [retryRun]
    simp only [attemptBody, h, attemptResult]
  · intro h
    show retryRun (fun i => attemptBody (attempts i)) 0 2 = _
    rw [retryRun]
    simp only [attemptBody, h, attemptResult]

/-- Witness for C2 (amended) at a stream of three consecutive timeouts. -/
theorem remote_fails_soft_no_retry_witness :
    classify_with_openai (fun _ => .exn "timed out") =
      .ok { archetype := "API Error", confidence := "Low",
            evidence := "Error: " ++ pySlice "timed out" 80,
            secondary := [], dcs := .str "", wave := "" } :=
  (remote_fails_soft_no_retry (fun _ => .exn "timed out")).2.1 "timed out" rfl

/-! ### C7: per-row failure isolation in the batch loop -/

/-- C7: in every batch run, a row whose classification raises an exception is
replaced by the synthetic Processing Error record (confidence Low, the error
text truncated to 100 characters, empty secondary fields) and the batch
continues: every row still yields exactly one result record, in order, and a
row that classifies normally is unaffected. -/
theorem row_failure_isolated (useAi : Bool) (rows : List InRow) :
    ((loopRun useAi 0 rows).results.length = rows.length) ∧
    (∀ (i : Nat) (row : InRow) (msg : String),
      rows.get? i = some row → row.outcome = .raiseExn msg →
      (loopRun useAi 0 rows).results.get? i = some (errorRecord msg)) ∧
    (∀ (i : Nat) (row : InRow) (r : ClassifyResult),
      rows.get? i = some row → row.outcome = .ok r →
      (loopRun useAi 0 rows).results.get? i = some (rowRecord r)) := by
  rw [loopRun_zero]
  refine ⟨by simp, ?_, ?_⟩
  · intro i row msg hrow hout
    simp only [List.get?_map, hrow]
    show some (recOf row) = some (errorRecord msg)
    unfold recOf
    rw [hout]
  · intro i row r hrow hout
    simp only [List.get?_map, hrow]
    show some (recOf row) = some (rowRecord r)
    unfold recOf
    rw [hout]

/-- Witness for C7: a three-row batch whose middle row raises; the middle row
yields the synthetic record, the other rows yield their normal records, and
three records come out. -/
theorem row_failure_isolated_witness :
    ((loopRun false 0
        [{ outcome := .ok { archetype := "Enablers", confidence := "Medium",
                            evidence := "api", secondary := [], dcs := .str "", wave := "" } },
         { outcome := .raiseExn "boom" },
         { outcome := .ok { archetype := "Protectors", confidence := "Medium",
                            evidence := "iot", secondary := [], dcs := .str "", wave := "" } }]).results.get? 1 =
      some (errorRecord "boom")) ∧
    ((loopRun false 0
        [{ outcome := .ok { archetype := "Enablers", confidence := "Medium",
                            evidence := "api", secondary := [], dcs := .str "", wave := "" } },
         { outcome := .raiseExn "boom" },
         { outcome := .ok { archetype := "Protectors", confidence := "Medium",
                            evidence := "iot", secondary := [], dcs := .str "", wave := "" } }]).results.length = 3) :=
  ⟨(row_failure_isolated false _).2.1 1 { outcome := .raiseExn "boom" } "boom" rfl rfl,
   (row_failure_isolated false _).1⟩

/-! ### C9: the per-row cost increment -/

/-- Counterexample for C9: the claim says the cost accumulator is incremented
exactly on the rows whose remote classification succeeded and never on error
outcomes.  But the exclusion list of the source is only
{API Error, Unclassified, Processing Error}: a row whose result is the
synthetic "API Error - JSON" error tuple still increments the accumulator,
and a row legitimately classified "Unclassified" (a non-error result) does
not. -/
theorem cost_increment_mismatch :
    (loopRun true 0 [{ outcome := .ok (attemptResult .badJson) }]).costUnits = 1 ∧
    (loopRun true 0
      [{ outcome := .ok { archetype := "Unclassified", confidence := "Medium",
                          evidence := "", secondary := [], dcs := .list [],
                          wave := "" } }]).costUnits = 0 := by
  constructor
  · decide
  · decide

/-- C9 (amended): in AI mode the cost accumulator is incremented by one fixed
per-call unit (0.0002 USD) exactly on the rows whose classification returned
a tuple whose archetype is outside {API Error, Unclassified, Processing
Error} — so JSON-parse error rows ("API Error - JSON") are counted and
Unclassified rows are not — and rows whose classification raised are never
counted; the final accumulator equals the unit times that row count.  Outside
AI mode it stays zero. -/
theorem cost_unit_per_qualifying_row (rows : List InRow) :
    ((loopRun true 0 rows).costUnits =
      List.countP (fun row =>
        match row.outcome with
        | .ok r => !(costExcluded.contains r.archetype)
        | .raiseExn _ => false) rows) ∧
    ((loopRun false 0 rows).costUnits = 0) := by
  constructor
  · rw [loopRun_zero]
    apply List.countP_congr
    intro row _
    cases h : row.outcome <;> simp [costOf, h]
  · rw [loopRun_zero]
    show List.countP (costOf false) rows = 0
    apply List.countP_eq_zero.mpr
    intro row _
    cases h : row.outcome <;> simp [costOf, h]

/-! ### C10: the redesigned runner applies no correction -/

/-- C10: run_analysis emits exactly the original rows with the six-field
result records appended positionally; the conditional corrector columns
(Founded_Year, Age_Corrected, Initial_Archetype) are never written, the
archetype of every emitted record is exactly the archetype its classification
returned, and the record is independent of the founding-year cell of the
row. -/
theorem run_analysis_no_correction (useAi : Bool) (rows : List InRow) :
    ((run_analysis useAi rows).1.length = rows.length) ∧
    (∀ (i : Nat) (row : InRow), rows.get? i = some row →
      (run_analysis useAi rows).1.get? i = some (row, some (recOf row))) ∧
    (∀ row : InRow, (recOf row).foundedYear = none ∧
      (recOf row).ageCorrected = none ∧ (recOf row).initialArchetype = none) ∧
    (∀ (o : RowOutcome) (p p₂ : Option String) (y y₂ : Option Int),
      recOf { outcome := o, preArch := p, yearCell := y } =
      recOf { outcome := o, preArch := p₂, yearCell := y₂ }) ∧
    (∀ (row : InRow) (r : ClassifyResult), row.outcome = .ok r →
      (recOf row).predictedArchetype = r.archetype) := by
  refine ⟨?_, ?_, ?_, ?_, ?_⟩
  · show (padTable rows (loopRun useAi 0 rows).results).length = rows.length
    rw [length_padTable]
  · intro i row hrow
    show (padTable rows (loopRun useAi 0 rows).results).get? i = _
    rw [padTable_get, loopRun_zero]
    simp only [List.get?_map, hrow, Option.map_some]
    rfl
  · intro row
    cases h : row.outcome with
    | ok r => rw [recOf, h]; exact ⟨rfl, rfl, rfl⟩
    | raiseExn msg => rw [recOf, h]; exact ⟨rfl, rfl, rfl⟩
  · intro o p p₂ y y₂
    rw [recOf, recOf]
  · intro row r h
    unfold recOf
    rw [h]
    rfl

/-- Witness for C10: a one-row run over an Innovators result with founding
year 2000 emits the record unchanged, with no corrector columns. -/
theorem run_analysis_no_correction_witness :
    (run_analysis false
        [{ outcome := .ok { archetype := "Innovators", confidence := "Medium",
                            evidence := "p2p", secondary := [], dcs := .str "",
                            wave := "" },
           yearCell := some (2000 : Int) }]).1.get? 0 =
      some ({ outcome := .ok { archetype := "Innovators", confidence := "Medium",
                               evidence := "p2p", secondary := [], dcs := .str "",
                               wave := "" },
              yearCell := some (2000 : Int) },
            some (recOf { outcome := .ok { archetype := "Innovators",
                                           confidence := "Medium",
                                           evidence := "p2p", secondary := [],
                                           dcs := .str "", wave := "" },
                          yearCell := some (2000 : Int) })) :=
  (run_analysis_no_correction false _).2.1 0 _ rfl

/-! ### C8: positional alignment of the final table -/

/-- C8 (amended): for every fresh batch run (no checkpoint in the session),
the final table preserves the input row order and aligns positionally: its
length is the number of input rows, and row i pairs input row i with exactly
the result computed for that row — its classification record, age-corrected
against the founding-year cell of the same row when a founding-year column
was discovered. -/
theorem batch_output_alignment_fresh
    (useAi : Bool) (cols : List String) (input : List InRow) (i : Nat) (row : InRow)
    (hrow : input.get? i = some row) :
    ((mainRun useAi cols input none).1.length = input.length) ∧
    ((mainRun useAi cols input none).1.get? i =
      some (row, some (match findYearColumn cols with
        | some _ => applyCorrection (yearedRec row)
        | none => recOf row))) := by
  cases hcol : findYearColumn cols with
  | none =>
    have h1 : (mainRun useAi cols input none).1 =
        padTable input ((loopRun useAi 0 input).results) := by
      simp only [mainRun, hcol]
    rw [h1]
    refine ⟨length_padTable _ _, ?_⟩
    rw [padTable_get, loopRun_zero]
    simp only [List.get?_map, hrow]
    rfl
  | some c =>
    have h1 : (mainRun useAi cols input none).1 =
        padTable input
          (age_correction ((loopRun useAi 0 input).results)
            (input.map (fun r => r.yearCell))).1 := by
      simp only [mainRun, hcol]
    rw [h1, loopRun_zero]
    refine ⟨?_, ?_⟩
    · show (padTable input
        (age_correction (input.map recOf) (input.map (fun r => r.yearCell))).1).length =
        input.length
      rw [length_padTable]
    · show (padTable input
        (age_correction (input.map recOf) (input.map (fun r => r.yearCell))).1).get? i = _
      rw [age_correction_batch, padTable_get]
      simp only [List.get?_map, hrow]
      rfl

/-- The row used to exercise the fresh-run alignment of C8. -/
def freshRow : InRow :=
  { outcome := .ok { archetype := "Innovators", confidence := "Medium",
                     evidence := "p2p", secondary := [], dcs := .str "", wave := "" },
    yearCell := some (2000 : Int) }

/-- Witness for C8 (amended): a fresh one-row run with a discovered year
column emits, at row 0, exactly the classification record of row 0 corrected
against the year cell of row 0. -/
theorem batch_output_alignment_fresh_witness :
    (mainRun false ["Founded Year"] [freshRow] none).1.get? 0 =
      some (freshRow, some (match findYearColumn ["Founded Year"] with
        | some _ => applyCorrection (yearedRec freshRow)
        | none => recOf freshRow)) :=
  (batch_output_alignment_fresh false ["Founded Year"] [freshRow] 0 freshRow rfl).2

/-- A checkpoint row: already classified, so its Predicted_Archetype cell is
a non-empty string. -/
def ckptRow : InRow :=
  { outcome := .ok { archetype := "Enablers", confidence := "Medium",
                     evidence := "platform", secondary := [], dcs := .str "", wave := "" },
    preArch := some "Enablers" }

/-- Counterexample for C8: the claim says alignment also holds for a run
resumed from a checkpoint.  It does not: resuming from a one-row checkpoint
whose row is already classified sets start_idx to 1, the loop skips every
row, no result record is appended, and row 0 of the final table carries no
appended result at all instead of the classification result computed for
input row 0. -/
theorem resumed_run_misaligns :
    (mainRun false [] [ckptRow] (some [ckptRow])).1.map (fun p => p.2) = [none] ∧
    (mainRun false [] [ckptRow] (some [ckptRow])).1 ≠
      [(ckptRow, some (recOf ckptRow))] := by
  constructor
  · decide
  · decide
